import Mathlib

/-!
# Verification of the NocSonicMedia Cordova plugin client layer

Shallow embedding of the two JavaScript variants of the plugin:

* `Bridge` — `src/www/NocSonicMedia.js`, forwarding every operation over the
  Cordova `exec` bridge and receiving status messages on a shared channel;
* `Browser` — `src/unnamed/part_000`, backing each handle with an in-process
  `Audio` element.

JavaScript values relevant to the claims are modelled by `JSValue`
(numbers as exact rationals, strings, `{code: _}` error payloads, caught
exception objects, functions and `undefined`).  Callback invocations and
`console.error` logging are recorded as an explicit event trace, and an
operation that raises to its caller returns `thrown = some e`.  Each
module's process-wide `mediaObjects` registry is a finite map from id
strings to handle records, threaded explicitly through every operation.
-/

/-- A JavaScript value, restricted to the shapes that flow through the
plugin: numbers (modelled exactly as rationals; no claim depends on
floating-point rounding), strings, plain objects carrying a numeric `code`
field (the error payloads built by both variants), caught exception
objects, function values (only their being functions matters, for argument
checking) and `undefined` (also standing for `null`, which the code never
distinguishes from it). -/
inductive JSValue where
  | num (q : Rat)
  | str (s : String)
  | obj (code : Rat)
  | exnObj (msg : String)
  | func
  | undefined
deriving DecidableEq, Repr

namespace JSValue

/-- JavaScript truthiness for the modelled values: `if (v)`. -/
def truthy : JSValue → Bool
  | .num q => q ≠ 0
  | .str s => s ≠ ""
  | .obj _ => true
  | .exnObj _ => true
  | .func => true
  | .undefined => false

end JSValue

/-- Value of a list of decimal digits. -/
def digitsVal (l : List Char) : Nat :=
  l.foldl (fun acc c => acc * 10 + (c.toNat - 48)) 0

/-- JavaScript `ToNumber` on a string, on the fragment the plugin can
receive: the empty (or all-whitespace) string converts to `0`, an optional
minus sign followed by decimal digits converts to the denoted integer, and
anything else converts to NaN (`none`). -/
def stringToNumber (s : String) : Option Rat :=
  let t := ((s.data.dropWhile Char.isWhitespace).reverse.dropWhile
    Char.isWhitespace).reverse
  if t = [] then some 0
  else if t.all Char.isDigit then some ((digitsVal t : Nat) : Rat)
  else if t.head? = some '-' ∧ t.tail ≠ [] ∧ t.tail.all Char.isDigit then
    some (-((digitsVal t.tail : Nat) : Rat))
  else none

/-- JavaScript `Number(v)` as used in `media._position = Number(value)`:
numbers pass through, strings go through `ToNumber` (NaN modelled as
`undefined`-tagged `none` collapsed to the `exnObj "NaN"`-free encoding below),
`undefined` and objects convert to NaN.  NaN is represented by `none`. -/
def jsNumber : JSValue → Option Rat
  | .num q => some q
  | .str s => stringToNumber s
  | _ => none

/-- JavaScript loose equality `v == q` against a number `q`, as in the
bridge variant's `value == NocSonicMedia.MEDIA_STOPPED`: a number compares
numerically, a string is converted with `ToNumber` first (NaN compares
unequal), and `undefined`, functions and the plugin's object payloads
compare unequal (their `ToPrimitive` image is a non-numeric string). -/
def looseEqNum (v : JSValue) (q : Rat) : Bool :=
  match v with
  | .num n => n == q
  | .str s => (stringToNumber s).elim false (· == q)
  | _ => false

/-- JavaScript strict equality `v === q` against a number `q`, as in the
browser variant's `value === NocSonicMedia.MEDIA_STOPPED`. -/
def strictEqNum (v : JSValue) (q : Rat) : Bool :=
  match v with
  | .num n => n == q
  | _ => false

namespace NocSonicMedia

-- NocSonicMedia messages (identical constants in both source files)
def MEDIA_STATE : Rat := 1
def MEDIA_DURATION : Rat := 2
def MEDIA_POSITION : Rat := 3
def MEDIA_ERROR : Rat := 9

-- NocSonicMedia states
def MEDIA_NONE : Rat := 0
def MEDIA_STARTING : Rat := 1
def MEDIA_RUNNING : Rat := 2
def MEDIA_PAUSED : Rat := 3
def MEDIA_STOPPED : Rat := 4

end NocSonicMedia

namespace NocSonicMediaError

/-- Modelled from the spec: the `NocSonicMediaError` code table lives in a
repository file not included under `src/` (`part_000` declares it as a
global).  The spec (§4.1, §4.3) requires an "aborted" code distinct from
the browser's "source not supported" code; the values mirror the W3C
`MediaError` constants the spec's remapping refers to. -/
def MEDIA_ERR_ABORTED : Rat := 1

/-- Modelled from the spec: see `MEDIA_ERR_ABORTED`. -/
def MEDIA_ERR_SRC_NOT_SUPPORTED : Rat := 4

end NocSonicMediaError

/-- One observable effect of an operation: an invocation of one of the
handle's three construction-time callbacks, an invocation of a per-call
`success`/`fail` parameter (`getCurrentPosition`), a `console.error` log,
or a message sent over the Cordova `exec` bridge. -/
inductive CbEvent where
  | statusCb (id : String) (value : JSValue)
  | successCb (id : String)
  | errorCb (id : String) (value : JSValue)
  | successArg (id : String) (value : JSValue)
  | failArg (id : String) (value : JSValue)
  | log (msg : String)
  | execCall (action : String) (args : List JSValue)
deriving DecidableEq, Repr

/-- Whether an event is an invocation of a handle callback or per-call
callback (as opposed to logging or bridge traffic). -/
def CbEvent.isCallback : CbEvent → Bool
  | .statusCb _ _ => true
  | .successCb _ => true
  | .errorCb _ _ => true
  | .successArg _ _ => true
  | .failArg _ _ => true
  | .log _ => false
  | .execCall _ _ => false

/-- Whether an event is an invocation of `successCallback`. -/
def CbEvent.isSuccessCb : CbEvent → Bool
  | .successCb _ => true
  | _ => false

/-- One character of a cordova `argscheck` specification string, restricted
to the characters the two constructors use: `'s'` (required string),
`'S'` (optional string), `'F'` (optional function). -/
inductive ArgSpec where
  | reqString
  | optString
  | optFunction
deriving DecidableEq, Repr

/-- Embeds the `cordova/argscheck` collaborator the spec assumes (§6, "an
argument-shape validator that raises descriptively on mismatched call
signatures"): a lowercase specification character requires an argument of
the named type, an uppercase one additionally accepts `null`/`undefined`
(and an argument that was not passed at all arrives as `undefined`). -/
def argOk : ArgSpec → JSValue → Bool
  | .reqString, .str _ => true
  | .reqString, _ => false
  | .optString, .str _ => true
  | .optString, .undefined => true
  | .optString, _ => false
  | .optFunction, .func => true
  | .optFunction, .undefined => true
  | .optFunction, _ => false

/-- Embeds `argscheck.checkArgs(spec, name, arguments)`: every position of the
specification must accept the corresponding argument (missing trailing
arguments are `undefined`); returns `false` where the collaborator raises
a descriptive `TypeError`. -/
def checkArgs : List ArgSpec → List JSValue → Bool
  | [], _ => true
  | c :: cs, [] => argOk c .undefined && checkArgs cs []
  | c :: cs, a :: as => argOk c a && checkArgs cs as

/-- Result of one synchronous operation of a variant whose handle type is
`H`: the updated `mediaObjects` registry, the emitted events in order, and
the exception the operation raised to its caller, if any. -/
structure OpResult (H : Type) where
  reg : String → Option H
  events : List CbEvent
  thrown : Option JSValue := none

namespace Bridge

/-!
## Bridge variant — `src/www/NocSonicMedia.js`

Every operation forwards over `exec` (recorded as `CbEvent.execCall`);
client-side state changes only happen in `exec` success callbacks (the
`*Ack` definitions below) and in `onStatus`.
-/

/-- One `NocSonicMedia` instance of the bridge variant: the fields set by
the constructor.  The three callbacks are stored as the raw argument
values, as the source does (`this.successCallback = successCallback`);
dispatch sites test them for truthiness (`media.successCallback && …`). -/
structure Handle where
  id : String
  src : JSValue
  successCallback : JSValue
  errorCallback : JSValue
  statusCallback : JSValue
  duration : JSValue
  position : JSValue
deriving DecidableEq, Repr

/-- The module-level `mediaObjects` object, keyed by handle id. -/
abbrev Registry := String → Option Handle

/-- Embeds the assignment `mediaObjects[id] = h` (JavaScript object-property assignment). -/
def Registry.update (reg : Registry) (id : String) (h : Handle) : Registry :=
  fun i => if i = id then some h else reg i

/-- Embeds the `NocSonicMedia` constructor (bridge variant):
`argscheck.checkArgs('sFFF', …)`, then allocate a fresh id (`freshId`
stands for `utils.createUUID()`), register the handle in `mediaObjects`,
initialise `_duration`/`_position` to −1, and send the fire-and-forget
`create` request over the bridge. -/
def create (reg : Registry) (freshId : String)
    (src successCallback errorCallback statusCallback : JSValue) :
    OpResult Handle :=
  if checkArgs [.reqString, .optFunction, .optFunction, .optFunction]
      [src, successCallback, errorCallback, statusCallback] then
    let h : Handle :=
      { id := freshId, src := src,
        successCallback := successCallback,
        errorCallback := errorCallback,
        statusCallback := statusCallback,
        duration := .num (-1), position := .num (-1) }
    { reg := Registry.update reg freshId h,
      events := [.execCall "create" [.str freshId, src]] }
  else
    { reg := reg, events := [],
      thrown := some (.exnObj "NocSonicMedia: argument type mismatch") }

/-- Embeds `NocSonicMedia.onStatus` (bridge variant): look the handle up in
`mediaObjects`; if absent, log and discard; otherwise dispatch on
`msgType` (a JavaScript `switch`, i.e. strict comparison against the
`MEDIA_*` message constants).  The Stopped test uses loose equality
(`value == NocSonicMedia.MEDIA_STOPPED`). -/
def onStatus (reg : Registry) (id : String) (msgType value : JSValue) :
    OpResult Handle :=
  match reg id with
  | some media =>
    if msgType = .num NocSonicMedia.MEDIA_STATE then
      { reg := reg,
        events :=
          (if media.statusCallback.truthy then [CbEvent.statusCb id value] else [])
          ++ (if looseEqNum value NocSonicMedia.MEDIA_STOPPED then
                if media.successCallback.truthy then [CbEvent.successCb id] else []
              else []) }
    else if msgType = .num NocSonicMedia.MEDIA_DURATION then
      { reg := Registry.update reg id { media with duration := value },
        events := [] }
    else if msgType = .num NocSonicMedia.MEDIA_ERROR then
      { reg := reg,
        events :=
          if media.errorCallback.truthy then [CbEvent.errorCb id value] else [] }
    else if msgType = .num NocSonicMedia.MEDIA_POSITION then
      { reg := Registry.update reg id
          { media with position := (jsNumber value).elim (.exnObj "NaN") .num },
        events := [] }
    else
      { reg := reg, events := [.log "Unhandled NocSonicMedia.onStatus"] }
  | none =>
    { reg := reg,
      events := [.log "Received NocSonicMedia.onStatus callback for unknown media"] }

/-- Embeds `NocSonicMedia.prototype.play` (bridge): forward `startPlayingAudio`.
Every handle is registered at construction and never removed, so the
registry lookup of `this` always succeeds; the `none` branches of this and
the following operations are unreachable no-ops. -/
def play (reg : Registry) (id : String) (options : JSValue) : OpResult Handle :=
  match reg id with
  | some media =>
    { reg := reg,
      events := [.execCall "startPlayingAudio" [.str id, media.src, options]] }
  | none => { reg := reg, events := [] }

/-- Embeds `NocSonicMedia.prototype.stop` (bridge): forward `stopPlayingAudio`. -/
def stop (reg : Registry) (id : String) : OpResult Handle :=
  { reg := reg, events := [.execCall "stopPlayingAudio" [.str id]] }

/-- The `exec` success callback registered by `stop`: `me._position = 0`. -/
def stopAck (reg : Registry) (id : String) : OpResult Handle :=
  match reg id with
  | some media =>
    { reg := Registry.update reg id { media with position := .num 0 }, events := [] }
  | none => { reg := reg, events := [] }

/-- Embeds `NocSonicMedia.prototype.seekTo` (bridge): forward `seekToAudio`. -/
def seekTo (reg : Registry) (id : String) (milliseconds : JSValue) :
    OpResult Handle :=
  { reg := reg, events := [.execCall "seekToAudio" [.str id, milliseconds]] }

/-- The `exec` success callback registered by `seekTo`: `me._position = p`
with the native-confirmed position `p`. -/
def seekAck (reg : Registry) (id : String) (p : JSValue) : OpResult Handle :=
  match reg id with
  | some media =>
    { reg := Registry.update reg id { media with position := p }, events := [] }
  | none => { reg := reg, events := [] }

/-- Embeds `NocSonicMedia.prototype.pause` (bridge): forward `pausePlayingAudio`. -/
def pause (reg : Registry) (id : String) : OpResult Handle :=
  { reg := reg, events := [.execCall "pausePlayingAudio" [.str id]] }

/-- Embeds `NocSonicMedia.prototype.getDuration` (bridge): pure synchronous
accessor `return this._duration`. -/
def getDuration (media : Handle) : JSValue :=
  media.duration

/-- Embeds `NocSonicMedia.prototype.getCurrentPosition` (bridge): forward
`getCurrentPositionAudio`. -/
def getCurrentPosition (reg : Registry) (id : String) : OpResult Handle :=
  { reg := reg, events := [.execCall "getCurrentPositionAudio" [.str id]] }

/-- The `exec` success callback registered by `getCurrentPosition`:
`me._position = p; success(p)`. -/
def positionAck (reg : Registry) (id : String) (p : JSValue) : OpResult Handle :=
  match reg id with
  | some media =>
    { reg := Registry.update reg id { media with position := p },
      events := [.successArg id p] }
  | none => { reg := reg, events := [] }

/-- Embeds `NocSonicMedia.prototype.startRecord` (bridge). -/
def startRecord (reg : Registry) (id : String) : OpResult Handle :=
  match reg id with
  | some media =>
    { reg := reg,
      events := [.execCall "startRecordingAudio" [.str id, media.src]] }
  | none => { reg := reg, events := [] }

/-- Embeds `NocSonicMedia.prototype.stopRecord` (bridge). -/
def stopRecord (reg : Registry) (id : String) : OpResult Handle :=
  { reg := reg, events := [.execCall "stopRecordingAudio" [.str id]] }

/-- Embeds `NocSonicMedia.prototype.release` (bridge): forward `release`; the
native side tears the resource down, the registry entry stays. -/
def release (reg : Registry) (id : String) : OpResult Handle :=
  { reg := reg, events := [.execCall "release" [.str id]] }

/-- Embeds `NocSonicMedia.prototype.setVolume` (bridge): forward `setVolume`. -/
def setVolume (reg : Registry) (id : String) (volume : JSValue) :
    OpResult Handle :=
  { reg := reg, events := [.execCall "setVolume" [.str id, volume]] }

end Bridge

namespace Browser

/-!
## Local-element variant — `src/unnamed/part_000`

Each handle owns an in-process `Audio` element (`node`); operations act on
it directly, and the element's lifecycle events feed `onStatus`.
-/

/-- The state of an in-process `Audio` element that the plugin touches:
its source, time cursor (seconds), paused flag and volume. -/
structure AudioNode where
  src : Option JSValue
  currentTime : Rat
  paused : Bool
  volume : JSValue
deriving DecidableEq, Repr

/-- One `NocSonicMedia` instance of the local variant: the bridge variant's
fields plus the owned element, `none` after `release()` (and between a
failed `createNode` and the next successful one). -/
structure Handle where
  id : String
  src : JSValue
  successCallback : JSValue
  errorCallback : JSValue
  statusCallback : JSValue
  duration : JSValue
  position : JSValue
  node : Option AudioNode
deriving DecidableEq, Repr

/-- The module-level `mediaObjects` object of this variant. -/
abbrev Registry := String → Option Handle

/-- Embeds the assignment `mediaObjects[id] = h`. -/
def Registry.update (reg : Registry) (id : String) (h : Handle) : Registry :=
  fun i => if i = id then some h else reg i

/-- Embeds `createNode(media)`: build a fresh `Audio` element, wire its five
lifecycle handlers (modelled by `onLoadStart`, `onPlaying`,
`onDurationChange`, `onElementError` and `onEnded` below) and copy
`media.src` onto it when truthy.  `audioOk` models whether the host can
construct an `Audio` element at all: `new Audio()` raises when it cannot,
returned here as `none` for the enclosing `try`/`catch`. -/
def createNode (audioOk : Bool) (media : Handle) : Option AudioNode :=
  if audioOk then
    some { src := if media.src.truthy then some media.src else none,
           currentTime := 0, paused := true, volume := .num 1 }
  else none

/-- Embeds `NocSonicMedia.onStatus` (local variant): identical to the bridge
variant's dispatcher except that the Stopped test uses strict equality
(`value === NocSonicMedia.MEDIA_STOPPED`). -/
def onStatus (reg : Registry) (id : String) (msgType value : JSValue) :
    OpResult Handle :=
  match reg id with
  | some media =>
    if msgType = .num NocSonicMedia.MEDIA_STATE then
      { reg := reg,
        events :=
          (if media.statusCallback.truthy then [CbEvent.statusCb id value] else [])
          ++ (if strictEqNum value NocSonicMedia.MEDIA_STOPPED then
                if media.successCallback.truthy then [CbEvent.successCb id] else []
              else []) }
    else if msgType = .num NocSonicMedia.MEDIA_DURATION then
      { reg := Registry.update reg id { media with duration := value },
        events := [] }
    else if msgType = .num NocSonicMedia.MEDIA_ERROR then
      { reg := reg,
        events :=
          if media.errorCallback.truthy then [CbEvent.errorCb id value] else [] }
    else if msgType = .num NocSonicMedia.MEDIA_POSITION then
      { reg := Registry.update reg id
          { media with position := (jsNumber value).elim (.exnObj "NaN") .num },
        events := [] }
    else
      { reg := reg, events := [.log "Unhandled NocSonicMedia.onStatus"] }
  | none =>
    { reg := reg,
      events := [.log "Received NocSonicMedia.onStatus callback for unknown media"] }

/-- Embeds the `NocSonicMedia` constructor (local variant):
`argscheck.checkArgs('SFFF', …)` — note the uppercase `'S'`: the source is
allowed to be `null`/`undefined` here — then register under the fresh id,
emit a Starting state notification through `onStatus`, and
`try { this.node = createNode(this) } catch { … MEDIA_ERR_ABORTED … }`.
A State message never modifies its handle, so `this` still equals the
freshly built handle when `createNode` reads it. -/
def create (reg : Registry) (freshId : String) (audioOk : Bool)
    (src successCallback errorCallback statusCallback : JSValue) :
    OpResult Handle :=
  if checkArgs [.optString, .optFunction, .optFunction, .optFunction]
      [src, successCallback, errorCallback, statusCallback] then
    let h : Handle :=
      { id := freshId, src := src,
        successCallback := successCallback,
        errorCallback := errorCallback,
        statusCallback := statusCallback,
        duration := .num (-1), position := .num (-1), node := none }
    let r₁ := onStatus (Registry.update reg freshId h) freshId
      (.num NocSonicMedia.MEDIA_STATE) (.num NocSonicMedia.MEDIA_STARTING)
    match createNode audioOk h with
    | some n =>
      { reg := Registry.update r₁.reg freshId { h with node := some n },
        events := r₁.events }
    | none =>
      let r₂ := onStatus r₁.reg freshId (.num NocSonicMedia.MEDIA_ERROR)
        (.obj NocSonicMediaError.MEDIA_ERR_ABORTED)
      { reg := r₂.reg, events := r₁.events ++ r₂.events }
  else
    { reg := reg, events := [],
      thrown := some (.exnObj "NocSonicMedia: argument type mismatch") }

/-- Embeds `NocSonicMedia.prototype.play` (local): if the node is absent (the
handle was released), `try { this.node = createNode(this) } catch { …
MEDIA_ERR_ABORTED … }`; then `this.node.play()` — unconditionally, so when
`createNode` failed the node is still absent and reading `.play` of
`undefined` raises a `TypeError` to the caller.  As in the bridge variant,
the registry lookup of `this` always succeeds for real handles and the
`none` branch is an unreachable no-op. -/
def play (reg : Registry) (id : String) (audioOk : Bool) : OpResult Handle :=
  match reg id with
  | some media =>
    let rebuilt : Registry × List CbEvent × Handle :=
      match media.node with
      | some _ => (reg, [], media)
      | none =>
        match createNode audioOk media with
        | some n =>
          let m := { media with node := some n }
          (Registry.update reg id m, [], m)
        | none =>
          let r := onStatus reg id (.num NocSonicMedia.MEDIA_ERROR)
            (.obj NocSonicMediaError.MEDIA_ERR_ABORTED)
          (r.reg, r.events, media)
    match rebuilt.2.2.node with
    | some n =>
      { reg := Registry.update rebuilt.1 id
          { rebuilt.2.2 with node := some { n with paused := false } },
        events := rebuilt.2.1 }
    | none =>
      { reg := rebuilt.1, events := rebuilt.2.1,
        thrown := some (.exnObj "TypeError: this.node is undefined") }
  | none => { reg := reg, events := [] }

/-- Embeds `NocSonicMedia.prototype.pause` (local): `try { this.node.pause();
onStatus(STATE, PAUSED) } catch { onStatus(ERROR, err) }` — with an absent
node the element access raises, is caught, and becomes an Error
notification. -/
def pause (reg : Registry) (id : String) : OpResult Handle :=
  match reg id with
  | some media =>
    match media.node with
    | some n =>
      let r := onStatus
        (Registry.update reg id { media with node := some { n with paused := true } })
        id (.num NocSonicMedia.MEDIA_STATE) (.num NocSonicMedia.MEDIA_PAUSED)
      { reg := r.reg, events := r.events }
    | none =>
      let r := onStatus reg id (.num NocSonicMedia.MEDIA_ERROR)
        (.exnObj "TypeError: this.node is undefined")
      { reg := r.reg, events := r.events }
  | none => { reg := reg, events := [] }

/-- Embeds `NocSonicMedia.prototype.seekTo` (local): `try { this.node.currentTime
= milliseconds / 1000 } catch { onStatus(ERROR, err) }`. -/
def seekTo (reg : Registry) (id : String) (milliseconds : Rat) : OpResult Handle :=
  match reg id with
  | some media =>
    match media.node with
    | some n =>
      { reg := Registry.update reg id
          { media with node := some { n with currentTime := milliseconds / 1000 } },
        events := [] }
    | none =>
      let r := onStatus reg id (.num NocSonicMedia.MEDIA_ERROR)
        (.exnObj "TypeError: this.node is undefined")
      { reg := r.reg, events := r.events }
  | none => { reg := reg, events := [] }

/-- Embeds `NocSonicMedia.prototype.stop` (local): `try { this.pause();
this.seekTo(0); onStatus(STATE, STOPPED) } catch { onStatus(ERROR, err)
}`.  `pause` and `seekTo` catch their own element failures and `onStatus`
never raises, so the outer `catch` is unreachable. -/
def stop (reg : Registry) (id : String) : OpResult Handle :=
  let r₁ := pause reg id
  let r₂ := seekTo r₁.reg id 0
  let r₃ := onStatus r₂.reg id (.num NocSonicMedia.MEDIA_STATE)
    (.num NocSonicMedia.MEDIA_STOPPED)
  { reg := r₃.reg, events := r₁.events ++ r₂.events ++ r₃.events }

/-- Embeds `NocSonicMedia.prototype.getDuration` (local): pure synchronous
accessor `return this._duration`. -/
def getDuration (media : Handle) : JSValue :=
  media.duration

/-- Embeds `NocSonicMedia.prototype.getCurrentPosition` (local): `try { var p =
this.node.currentTime; onStatus(POSITION, p); success(p) } catch {
fail(err) }`. -/
def getCurrentPosition (reg : Registry) (id : String) : OpResult Handle :=
  match reg id with
  | some media =>
    match media.node with
    | some n =>
      let p : JSValue := .num n.currentTime
      let r := onStatus reg id (.num NocSonicMedia.MEDIA_POSITION) p
      { reg := r.reg, events := r.events ++ [.successArg id p] }
    | none =>
      { reg := reg,
        events := [.failArg id (.exnObj "TypeError: this.node is undefined")] }
  | none => { reg := reg, events := [] }

/-- Embeds `NocSonicMedia.prototype.startRecord` (local): unconditionally
`onStatus(this.id, MEDIA_ERROR, "Not supported")`. -/
def startRecord (reg : Registry) (id : String) : OpResult Handle :=
  onStatus reg id (.num NocSonicMedia.MEDIA_ERROR) (.str "Not supported")

/-- Embeds `NocSonicMedia.prototype.stopRecord` (local): unconditionally
`onStatus(this.id, MEDIA_ERROR, "Not supported")`. -/
def stopRecord (reg : Registry) (id : String) : OpResult Handle :=
  onStatus reg id (.num NocSonicMedia.MEDIA_ERROR) (.str "Not supported")

/-- Embeds `NocSonicMedia.prototype.release` (local): `try { delete this.node }
catch { onStatus(ERROR, err) }` — deleting an own property never raises,
so the `catch` is unreachable; the registry entry stays. -/
def release (reg : Registry) (id : String) : OpResult Handle :=
  match reg id with
  | some media =>
    { reg := Registry.update reg id { media with node := none }, events := [] }
  | none => { reg := reg, events := [] }

/-- Embeds `NocSonicMedia.prototype.setVolume` (local): `this.node.volume =
volume` with no `try`/`catch` — with an absent node the element access
raises a `TypeError` straight to the caller. -/
def setVolume (reg : Registry) (id : String) (volume : JSValue) : OpResult Handle :=
  match reg id with
  | some media =>
    match media.node with
    | some n =>
      { reg := Registry.update reg id
          { media with node := some { n with volume := volume } },
        events := [] }
    | none =>
      { reg := reg, events := [],
        thrown := some (.exnObj "TypeError: this.node is undefined") }
  | none => { reg := reg, events := [] }

/-- The `node.onloadstart` handler wired by `createNode`. -/
def onLoadStart (reg : Registry) (id : String) : OpResult Handle :=
  onStatus reg id (.num NocSonicMedia.MEDIA_STATE) (.num NocSonicMedia.MEDIA_STARTING)

/-- The `node.onplaying` handler wired by `createNode`. -/
def onPlaying (reg : Registry) (id : String) : OpResult Handle :=
  onStatus reg id (.num NocSonicMedia.MEDIA_STATE) (.num NocSonicMedia.MEDIA_RUNNING)

/-- The `node.ondurationchange` handler wired by `createNode`:
`onStatus(id, MEDIA_DURATION, e.target.duration || -1)`; the element's
duration is a number or NaN (`none`), and a falsy duration (NaN or 0)
becomes −1. -/
def onDurationChange (reg : Registry) (id : String) (duration : Option Rat) :
    OpResult Handle :=
  onStatus reg id (.num NocSonicMedia.MEDIA_DURATION)
    (match duration with
     | some d => if d = 0 then .num (-1) else .num d
     | none => .num (-1))

/-- The `node.onerror` handler wired by `createNode`: per media.spec.15 a
"source not supported" element error is remapped to an "aborted" payload,
any other element error object is forwarded as is. -/
def onElementError (reg : Registry) (id : String) (errCode : Rat) : OpResult Handle :=
  onStatus reg id (.num NocSonicMedia.MEDIA_ERROR)
    (if errCode = NocSonicMediaError.MEDIA_ERR_SRC_NOT_SUPPORTED then
       .obj NocSonicMediaError.MEDIA_ERR_ABORTED
     else .obj errCode)

/-- The `node.onended` handler wired by `createNode`. -/
def onEnded (reg : Registry) (id : String) : OpResult Handle :=
  onStatus reg id (.num NocSonicMedia.MEDIA_STATE) (.num NocSonicMedia.MEDIA_STOPPED)

/-- One client-visible operation of the local variant, for stating
registry invariants over arbitrary operation sequences. -/
inductive Op where
  | construct (freshId : String) (audioOk : Bool)
      (src successCallback errorCallback statusCallback : JSValue)
  | play (id : String) (audioOk : Bool)
  | stop (id : String)
  | pause (id : String)
  | seekTo (id : String) (milliseconds : Rat)
  | getCurrentPosition (id : String)
  | startRecord (id : String)
  | stopRecord (id : String)
  | release (id : String)
  | setVolume (id : String) (volume : JSValue)
  | status (id : String) (msgType value : JSValue)
deriving Repr

/-- Effect of one local-variant operation on the `mediaObjects` registry. -/
def applyOp (reg : Registry) : Op → Registry
  | .construct freshId audioOk s a b c => (create reg freshId audioOk s a b c).reg
  | .play id audioOk => (play reg id audioOk).reg
  | .stop id => (stop reg id).reg
  | .pause id => (pause reg id).reg
  | .seekTo id ms => (seekTo reg id ms).reg
  | .getCurrentPosition id => (getCurrentPosition reg id).reg
  | .startRecord id => (startRecord reg id).reg
  | .stopRecord id => (stopRecord reg id).reg
  | .release id => (release reg id).reg
  | .setVolume id v => (setVolume reg id v).reg
  | .status id t v => (onStatus reg id t v).reg

/-- Effect of a sequence of local-variant operations on the registry. -/
def applyOps (reg : Registry) (ops : List Op) : Registry :=
  ops.foldl applyOp reg

end Browser

namespace Bridge

/-- One client-visible operation of the bridge variant, including the
`exec` acknowledgment callbacks and inbound status deliveries. -/
inductive Op where
  | construct (freshId : String)
      (src successCallback errorCallback statusCallback : JSValue)
  | play (id : String) (options : JSValue)
  | stop (id : String)
  | stopAck (id : String)
  | seekTo (id : String) (milliseconds : JSValue)
  | seekAck (id : String) (p : JSValue)
  | pause (id : String)
  | getCurrentPosition (id : String)
  | positionAck (id : String) (p : JSValue)
  | startRecord (id : String)
  | stopRecord (id : String)
  | release (id : String)
  | setVolume (id : String) (volume : JSValue)
  | status (id : String) (msgType value : JSValue)
deriving Repr

/-- Effect of one bridge-variant operation on the `mediaObjects` registry. -/
def applyOp (reg : Registry) : Op → Registry
  | .construct freshId s a b c => (create reg freshId s a b c).reg
  | .play id options => (play reg id options).reg
  | .stop id => (stop reg id).reg
  | .stopAck id => (stopAck reg id).reg
  | .seekTo id ms => (seekTo reg id ms).reg
  | .seekAck id p => (seekAck reg id p).reg
  | .pause id => (pause reg id).reg
  | .getCurrentPosition id => (getCurrentPosition reg id).reg
  | .positionAck id p => (positionAck reg id p).reg
  | .startRecord id => (startRecord reg id).reg
  | .stopRecord id => (stopRecord reg id).reg
  | .release id => (release reg id).reg
  | .setVolume id v => (setVolume reg id v).reg
  | .status id t v => (onStatus reg id t v).reg

/-- Effect of a sequence of bridge-variant operations on the registry. -/
def applyOps (reg : Registry) (ops : List Op) : Registry :=
  ops.foldl applyOp reg

end Bridge

/-!
## Concrete sample states used by the closed witness theorems
-/

/-- A bridge-variant handle with all three callbacks supplied. -/
def sampleBridgeHandle : Bridge.Handle :=
  { id := "m1", src := .str "track.mp3",
    successCallback := .func, errorCallback := .func, statusCallback := .func,
    duration := .num (-1), position := .num (-1) }

/-- A one-handle bridge registry. -/
def sampleBridgeReg : Bridge.Registry :=
  fun i => if i = "m1" then some sampleBridgeHandle else none

/-- A live element for the sample local-variant handle. -/
def sampleNode : Browser.AudioNode :=
  { src := some (.str "track.mp3"), currentTime := 0, paused := true,
    volume := .num 1 }

/-- A local-variant handle with all three callbacks supplied and a live
element. -/
def sampleBrowserHandle : Browser.Handle :=
  { id := "m1", src := .str "track.mp3",
    successCallback := .func, errorCallback := .func, statusCallback := .func,
    duration := .num (-1), position := .num (-1), node := some sampleNode }

/-- A one-handle local-variant registry. -/
def sampleBrowserReg : Browser.Registry :=
  fun i => if i = "m1" then some sampleBrowserHandle else none

/-- The sample local-variant handle after `release()`: element absent. -/
def releasedBrowserHandle : Browser.Handle :=
  { sampleBrowserHandle with node := none }

/-- A one-handle local-variant registry whose handle has been released. -/
def releasedBrowserReg : Browser.Registry :=
  fun i => if i = "m1" then some releasedBrowserHandle else none

/-- Sequential delivery of a list of inbound status messages
`(id, msgType, value)` over the bridge's shared status channel. -/
def Bridge.deliverAll (reg : Bridge.Registry)
    (msgs : List (String × JSValue × JSValue)) : Bridge.Registry :=
  msgs.foldl (fun r m => (Bridge.onStatus r m.1 m.2.1 m.2.2).reg) reg

/-- Specification-side value: the payload of the most recently delivered
Duration message addressed to `id` in `msgs`, or the start value `d` when
`msgs` contains none (the spec's "−1 if never established"). -/
def lastDurationValue (id : String) (msgs : List (String × JSValue × JSValue))
    (d : JSValue) : JSValue :=
  msgs.foldl (fun acc m =>
    if m.1 = id ∧ m.2.1 = JSValue.num NocSonicMedia.MEDIA_DURATION then m.2.2 else acc) d

/-- A sample operation sequence over the sample local-variant registry,
used by the registry-invariant witness. -/
def sampleOps : List Browser.Op :=
  [.play "m1" true, .release "m1", .status "m1" (.num 1) (.num 4),
   .setVolume "m1" (.num 1), .stop "m1",
   .construct "m2" true (.str "b.mp3") .func .undefined .undefined]

/-!
## Claim theorems
-/

/-- Helper: the string `"4"` compares loosely equal to the numeric Stopped
state, via JavaScript string-to-number coercion. -/
theorem looseEq_str4 : looseEqNum (.str "4") NocSonicMedia.MEDIA_STOPPED = true := by
  decide

/-- **C1**: for every registered handle (of either variant, with status and
success callbacks set), delivering a State message carrying the numeric
Stopped state invokes `statusCallback` with the Stopped value and then
`successCallback` exactly once with no arguments, while a State message
carrying any other numeric state value invokes only `statusCallback` and
never `successCallback`. -/
theorem stopped_state_invokes_success_once
    (breg : Bridge.Registry) (wreg : Browser.Registry) (id : String)
    (bm : Bridge.Handle) (wm : Browser.Handle)
    (hb : breg id = some bm) (hw : wreg id = some wm)
    (hb1 : bm.statusCallback.truthy = true) (hb2 : bm.successCallback.truthy = true)
    (hw1 : wm.statusCallback.truthy = true) (hw2 : wm.successCallback.truthy = true)
    (s : Rat) :
    (s = NocSonicMedia.MEDIA_STOPPED →
      (Bridge.onStatus breg id (.num NocSonicMedia.MEDIA_STATE) (.num s)).events
        = [.statusCb id (.num s), .successCb id]
      ∧ (Browser.onStatus wreg id (.num NocSonicMedia.MEDIA_STATE) (.num s)).events
        = [.statusCb id (.num s), .successCb id])
    ∧ (s ≠ NocSonicMedia.MEDIA_STOPPED →
      (Bridge.onStatus breg id (.num NocSonicMedia.MEDIA_STATE) (.num s)).events
        = [.statusCb id (.num s)]
      ∧ (Browser.onStatus wreg id (.num NocSonicMedia.MEDIA_STATE) (.num s)).events
        = [.statusCb id (.num s)]) := by
  constructor
  · intro h4
    subst h4
    simp [Bridge.onStatus, Browser.onStatus, hb, hw, hb1, hb2, hw1, hw2,
      looseEqNum, strictEqNum]
  · intro hne
    simp [Bridge.onStatus, Browser.onStatus, hb, hw, hb1, hb2, hw1, hw2,
      looseEqNum, strictEqNum, hne]

/-- Witness for **C1** at the sample one-handle registries and the Stopped
state. -/
theorem stopped_state_invokes_success_once_witness :
    (sampleBridgeReg "m1" = some sampleBridgeHandle
      ∧ sampleBrowserReg "m1" = some sampleBrowserHandle
      ∧ sampleBridgeHandle.statusCallback.truthy = true
      ∧ sampleBridgeHandle.successCallback.truthy = true
      ∧ sampleBrowserHandle.statusCallback.truthy = true
      ∧ sampleBrowserHandle.successCallback.truthy = true)
    ∧ ((NocSonicMedia.MEDIA_STOPPED = NocSonicMedia.MEDIA_STOPPED →
        (Bridge.onStatus sampleBridgeReg "m1" (.num NocSonicMedia.MEDIA_STATE)
            (.num NocSonicMedia.MEDIA_STOPPED)).events
          = [.statusCb "m1" (.num NocSonicMedia.MEDIA_STOPPED), .successCb "m1"]
        ∧ (Browser.onStatus sampleBrowserReg "m1" (.num NocSonicMedia.MEDIA_STATE)
            (.num NocSonicMedia.MEDIA_STOPPED)).events
          = [.statusCb "m1" (.num NocSonicMedia.MEDIA_STOPPED), .successCb "m1"])
      ∧ (NocSonicMedia.MEDIA_STOPPED ≠ NocSonicMedia.MEDIA_STOPPED →
        (Bridge.onStatus sampleBridgeReg "m1" (.num NocSonicMedia.MEDIA_STATE)
            (.num NocSonicMedia.MEDIA_STOPPED)).events
          = [.statusCb "m1" (.num NocSonicMedia.MEDIA_STOPPED)]
        ∧ (Browser.onStatus sampleBrowserReg "m1" (.num NocSonicMedia.MEDIA_STATE)
            (.num NocSonicMedia.MEDIA_STOPPED)).events
          = [.statusCb "m1" (.num NocSonicMedia.MEDIA_STOPPED)])) :=
  ⟨by decide,
   stopped_state_invokes_success_once sampleBridgeReg sampleBrowserReg "m1"
     sampleBridgeHandle sampleBrowserHandle
     (by decide) (by decide) (by decide) (by decide) (by decide) (by decide)
     NocSonicMedia.MEDIA_STOPPED⟩

/-- **C3**: delivering a status message for an id absent from the registry
(either variant, any message type and value) leaves the registry — hence
every handle's cached duration and position — unchanged, invokes no
callback (the only event is a `console.error` log), and does not raise. -/
theorem orphan_status_message_is_noop
    (breg : Bridge.Registry) (wreg : Browser.Registry) (id : String)
    (hb : breg id = none) (hw : wreg id = none) (msgType value : JSValue) :
    ((Bridge.onStatus breg id msgType value).reg = breg
      ∧ (Bridge.onStatus breg id msgType value).events.all (fun e => !e.isCallback)
      ∧ (Bridge.onStatus breg id msgType value).thrown = none)
    ∧ ((Browser.onStatus wreg id msgType value).reg = wreg
      ∧ (Browser.onStatus wreg id msgType value).events.all (fun e => !e.isCallback)
      ∧ (Browser.onStatus wreg id msgType value).thrown = none) := by
  simp [Bridge.onStatus, Browser.onStatus, hb, hw, CbEvent.isCallback]

/-- Witness for **C3** at an unregistered id. -/
theorem orphan_status_message_is_noop_witness :
    (sampleBridgeReg "nobody" = none ∧ sampleBrowserReg "nobody" = none)
    ∧ (((Bridge.onStatus sampleBridgeReg "nobody" (.num 1) (.num 4)).reg = sampleBridgeReg
      ∧ (Bridge.onStatus sampleBridgeReg "nobody" (.num 1) (.num 4)).events.all
          (fun e => !e.isCallback)
      ∧ (Bridge.onStatus sampleBridgeReg "nobody" (.num 1) (.num 4)).thrown = none)
    ∧ ((Browser.onStatus sampleBrowserReg "nobody" (.num 1) (.num 4)).reg = sampleBrowserReg
      ∧ (Browser.onStatus sampleBrowserReg "nobody" (.num 1) (.num 4)).events.all
          (fun e => !e.isCallback)
      ∧ (Browser.onStatus sampleBrowserReg "nobody" (.num 1) (.num 4)).thrown = none)) :=
  ⟨by decide,
   orphan_status_message_is_noop sampleBridgeReg sampleBrowserReg "nobody"
     (by decide) (by decide) (.num 1) (.num 4)⟩

/-- **C5**: on the local variant, `startRecord()` and `stopRecord()` each
produce exactly one Error notification with payload `"Not supported"`
(invoking the handle's `errorCallback`), leave the registry — hence the
underlying audio element — untouched, and do not raise. -/
theorem local_record_not_supported
    (wreg : Browser.Registry) (id : String) (wm : Browser.Handle)
    (hw : wreg id = some wm) (hwe : wm.errorCallback.truthy = true) :
    ((Browser.startRecord wreg id).events = [.errorCb id (.str "Not supported")]
      ∧ (Browser.startRecord wreg id).reg = wreg
      ∧ (Browser.startRecord wreg id).thrown = none)
    ∧ ((Browser.stopRecord wreg id).events = [.errorCb id (.str "Not supported")]
      ∧ (Browser.stopRecord wreg id).reg = wreg
      ∧ (Browser.stopRecord wreg id).thrown = none) := by
  simp [Browser.startRecord, Browser.stopRecord, Browser.onStatus, hw, hwe,
    NocSonicMedia.MEDIA_ERROR, NocSonicMedia.MEDIA_STATE, NocSonicMedia.MEDIA_DURATION]

/-- Witness for **C5** at the sample local-variant registry. -/
theorem local_record_not_supported_witness :
    (sampleBrowserReg "m1" = some sampleBrowserHandle
      ∧ sampleBrowserHandle.errorCallback.truthy = true)
    ∧ (((Browser.startRecord sampleBrowserReg "m1").events
        = [.errorCb "m1" (.str "Not supported")]
      ∧ (Browser.startRecord sampleBrowserReg "m1").reg = sampleBrowserReg
      ∧ (Browser.startRecord sampleBrowserReg "m1").thrown = none)
    ∧ ((Browser.stopRecord sampleBrowserReg "m1").events
        = [.errorCb "m1" (.str "Not supported")]
      ∧ (Browser.stopRecord sampleBrowserReg "m1").reg = sampleBrowserReg
      ∧ (Browser.stopRecord sampleBrowserReg "m1").thrown = none)) :=
  ⟨by decide,
   local_record_not_supported sampleBrowserReg "m1" sampleBrowserHandle
     (by decide) (by decide)⟩

/-- **C7**: delivering an Error status message with payload `{code: X}` to a
registered handle (either variant, error callback set) invokes
`errorCallback` exactly once with exactly that payload and leaves the
registry — hence the handle's cached duration and position — unchanged; in
particular neither `successCallback` nor `statusCallback` is invoked. -/
theorem error_message_dispatch_frame
    (breg : Bridge.Registry) (wreg : Browser.Registry) (id : String)
    (bm : Bridge.Handle) (wm : Browser.Handle)
    (hb : breg id = some bm) (hw : wreg id = some wm)
    (hbe : bm.errorCallback.truthy = true) (hwe : wm.errorCallback.truthy = true)
    (code : Rat) :
    ((Bridge.onStatus breg id (.num NocSonicMedia.MEDIA_ERROR) (.obj code)).events
        = [.errorCb id (.obj code)]
      ∧ (Bridge.onStatus breg id (.num NocSonicMedia.MEDIA_ERROR) (.obj code)).reg = breg)
    ∧ ((Browser.onStatus wreg id (.num NocSonicMedia.MEDIA_ERROR) (.obj code)).events
        = [.errorCb id (.obj code)]
      ∧ (Browser.onStatus wreg id (.num NocSonicMedia.MEDIA_ERROR) (.obj code)).reg = wreg) := by
  simp [Bridge.onStatus, Browser.onStatus, hb, hw, hbe, hwe,
    NocSonicMedia.MEDIA_ERROR, NocSonicMedia.MEDIA_STATE, NocSonicMedia.MEDIA_DURATION]

/-- Witness for **C7** with payload `{code: 3}`. -/
theorem error_message_dispatch_frame_witness :
    (sampleBridgeReg "m1" = some sampleBridgeHandle
      ∧ sampleBrowserReg "m1" = some sampleBrowserHandle
      ∧ sampleBridgeHandle.errorCallback.truthy = true
      ∧ sampleBrowserHandle.errorCallback.truthy = true)
    ∧ (((Bridge.onStatus sampleBridgeReg "m1" (.num NocSonicMedia.MEDIA_ERROR) (.obj 3)).events
        = [.errorCb "m1" (.obj 3)]
      ∧ (Bridge.onStatus sampleBridgeReg "m1" (.num NocSonicMedia.MEDIA_ERROR) (.obj 3)).reg
        = sampleBridgeReg)
    ∧ ((Browser.onStatus sampleBrowserReg "m1" (.num NocSonicMedia.MEDIA_ERROR) (.obj 3)).events
        = [.errorCb "m1" (.obj 3)]
      ∧ (Browser.onStatus sampleBrowserReg "m1" (.num NocSonicMedia.MEDIA_ERROR) (.obj 3)).reg
        = sampleBrowserReg)) :=
  ⟨by decide,
   error_message_dispatch_frame sampleBridgeReg sampleBrowserReg "m1"
     sampleBridgeHandle sampleBrowserHandle (by decide) (by decide) (by decide)
     (by decide) 3⟩

/-- **C9**: the two variants' `onStatus` dispatchers are inequivalent on the
Stopped test: a State message whose value is the string `"4"` makes the
bridge variant (loose `==`) invoke `successCallback` while the local
variant (strict `===`) invokes only `statusCallback`; the two agree when
the state value is the number 4. -/
theorem stopped_test_loose_vs_strict
    (breg : Bridge.Registry) (wreg : Browser.Registry) (id : String)
    (bm : Bridge.Handle) (wm : Browser.Handle)
    (hb : breg id = some bm) (hw : wreg id = some wm)
    (hb1 : bm.statusCallback.truthy = true) (hb2 : bm.successCallback.truthy = true)
    (hw1 : wm.statusCallback.truthy = true) (hw2 : wm.successCallback.truthy = true) :
    ((Bridge.onStatus breg id (.num NocSonicMedia.MEDIA_STATE) (.str "4")).events
        = [.statusCb id (.str "4"), .successCb id]
      ∧ (Browser.onStatus wreg id (.num NocSonicMedia.MEDIA_STATE) (.str "4")).events
        = [.statusCb id (.str "4")])
    ∧ ((Bridge.onStatus breg id (.num NocSonicMedia.MEDIA_STATE)
          (.num NocSonicMedia.MEDIA_STOPPED)).events
        = [.statusCb id (.num NocSonicMedia.MEDIA_STOPPED), .successCb id]
      ∧ (Browser.onStatus wreg id (.num NocSonicMedia.MEDIA_STATE)
          (.num NocSonicMedia.MEDIA_STOPPED)).events
        = [.statusCb id (.num NocSonicMedia.MEDIA_STOPPED), .successCb id]) := by
  refine ⟨⟨?_, ?_⟩, ?_⟩
  · simp [Bridge.onStatus, hb, hb1, hb2, looseEq_str4]
  · simp [Browser.onStatus, hw, hw1, strictEqNum]
  · simp [Bridge.onStatus, Browser.onStatus, hb, hw, hb1, hb2, hw1, hw2,
      looseEqNum, strictEqNum]

/-- Witness for **C9** at the sample registries. -/
theorem stopped_test_loose_vs_strict_witness :
    (sampleBridgeReg "m1" = some sampleBridgeHandle
      ∧ sampleBrowserReg "m1" = some sampleBrowserHandle
      ∧ sampleBridgeHandle.statusCallback.truthy = true
      ∧ sampleBridgeHandle.successCallback.truthy = true
      ∧ sampleBrowserHandle.statusCallback.truthy = true
      ∧ sampleBrowserHandle.successCallback.truthy = true)
    ∧ (((Bridge.onStatus sampleBridgeReg "m1" (.num NocSonicMedia.MEDIA_STATE) (.str "4")).events
        = [.statusCb "m1" (.str "4"), .successCb "m1"]
      ∧ (Browser.onStatus sampleBrowserReg "m1" (.num NocSonicMedia.MEDIA_STATE) (.str "4")).events
        = [.statusCb "m1" (.str "4")])
    ∧ ((Bridge.onStatus sampleBridgeReg "m1" (.num NocSonicMedia.MEDIA_STATE)
          (.num NocSonicMedia.MEDIA_STOPPED)).events
        = [.statusCb "m1" (.num NocSonicMedia.MEDIA_STOPPED), .successCb "m1"]
      ∧ (Browser.onStatus sampleBrowserReg "m1" (.num NocSonicMedia.MEDIA_STATE)
          (.num NocSonicMedia.MEDIA_STOPPED)).events
        = [.statusCb "m1" (.num NocSonicMedia.MEDIA_STOPPED), .successCb "m1"])) :=
  ⟨by decide,
   stopped_test_loose_vs_strict sampleBridgeReg sampleBrowserReg "m1"
     sampleBridgeHandle sampleBrowserHandle
     (by decide) (by decide) (by decide) (by decide) (by decide) (by decide)⟩

/-!
### Helper lemmas shared by the remaining claims
-/

/-- Helper: updating one registry key preserves presence of every key. -/
theorem Bridge.Registry.update_isSome (reg : Bridge.Registry) (id : String)
    (h : Bridge.Handle) (i : String) (hi : (reg i).isSome = true) :
    ((Bridge.Registry.update reg id h) i).isSome = true := by
  unfold Bridge.Registry.update
  split <;> simp [hi]

/-- Helper: updating one registry key preserves presence of every key. -/
theorem Browser.Registry.update_isSome_local (reg : Browser.Registry) (id : String)
    (h : Browser.Handle) (i : String) (hi : (reg i).isSome = true) :
    ((Browser.Registry.update reg id h) i).isSome = true := by
  unfold Browser.Registry.update
  split <;> simp [hi]

/-- Helper: bridge-variant `onStatus` never removes a registry entry. -/
theorem Bridge.onStatus_isSome (reg : Bridge.Registry) (id : String) (t v : JSValue)
    (i : String) (hi : (reg i).isSome = true) :
    ((Bridge.onStatus reg id t v).reg i).isSome = true := by
  unfold Bridge.onStatus
  cases hm : reg id with
  | none => simpa using hi
  | some m =>
    dsimp only
    split_ifs <;> simp [Bridge.Registry.update_isSome, hi]

/-- Helper: local-variant `onStatus` never removes a registry entry. -/
theorem Browser.onStatus_isSome_local (reg : Browser.Registry) (id : String) (t v : JSValue)
    (i : String) (hi : (reg i).isSome = true) :
    ((Browser.onStatus reg id t v).reg i).isSome = true := by
  unfold Browser.onStatus
  cases hm : reg id with
  | none => simpa using hi
  | some m =>
    dsimp only
    split_ifs <;> simp [Browser.Registry.update_isSome_local, hi]

/-- Helper: local-variant `play` never removes a registry entry. -/
theorem Browser.play_isSome (reg : Browser.Registry) (id : String) (audioOk : Bool)
    (i : String) (hi : (reg i).isSome = true) :
    ((Browser.play reg id audioOk).reg i).isSome = true := by
  unfold Browser.play
  cases hm : reg id with
  | none => simpa using hi
  | some m =>
    dsimp only
    cases hn : m.node with
    | some n =>
      simpa [hn] using Browser.Registry.update_isSome_local reg id _ i hi
    | none =>
      cases hcn : Browser.createNode audioOk m with
      | some n2 =>
        simp only [hn, hcn]
        exact Browser.Registry.update_isSome_local _ id _ i
          (Browser.Registry.update_isSome_local reg id _ i hi)
      | none =>
        simp only [hn, hcn]
        exact Browser.onStatus_isSome_local reg id _ _ i hi

/-- Helper: local-variant `pause` never removes a registry entry. -/
theorem Browser.pause_isSome (reg : Browser.Registry) (id : String)
    (i : String) (hi : (reg i).isSome = true) :
    ((Browser.pause reg id).reg i).isSome = true := by
  unfold Browser.pause
  cases hm : reg id with
  | none => simpa using hi
  | some m =>
    dsimp only
    cases hn : m.node with
    | some n =>
      exact Browser.onStatus_isSome_local _ id _ _ i
        (Browser.Registry.update_isSome_local reg id _ i hi)
    | none =>
      exact Browser.onStatus_isSome_local reg id _ _ i hi

/-- Helper: local-variant `seekTo` never removes a registry entry. -/
theorem Browser.seekTo_isSome (reg : Browser.Registry) (id : String) (ms : Rat)
    (i : String) (hi : (reg i).isSome = true) :
    ((Browser.seekTo reg id ms).reg i).isSome = true := by
  unfold Browser.seekTo
  cases hm : reg id with
  | none => simpa using hi
  | some m =>
    dsimp only
    cases hn : m.node with
    | some n => exact Browser.Registry.update_isSome_local reg id _ i hi
    | none => exact Browser.onStatus_isSome_local reg id _ _ i hi

/-- Helper: local-variant `stop` never removes a registry entry. -/
theorem Browser.stop_isSome (reg : Browser.Registry) (id : String)
    (i : String) (hi : (reg i).isSome = true) :
    ((Browser.stop reg id).reg i).isSome = true := by
  unfold Browser.stop
  exact Browser.onStatus_isSome_local _ id _ _ i
    (Browser.seekTo_isSome _ id 0 i (Browser.pause_isSome reg id i hi))

/-- Helper: local-variant `getCurrentPosition` never removes a registry
entry. -/
theorem Browser.getCurrentPosition_isSome (reg : Browser.Registry) (id : String)
    (i : String) (hi : (reg i).isSome = true) :
    ((Browser.getCurrentPosition reg id).reg i).isSome = true := by
  unfold Browser.getCurrentPosition
  cases hm : reg id with
  | none => simpa using hi
  | some m =>
    dsimp only
    cases hn : m.node with
    | some n => exact Browser.onStatus_isSome_local reg id _ _ i hi
    | none => simpa using hi

/-- Helper: local-variant `startRecord` never removes a registry entry. -/
theorem Browser.startRecord_isSome (reg : Browser.Registry) (id : String)
    (i : String) (hi : (reg i).isSome = true) :
    ((Browser.startRecord reg id).reg i).isSome = true := by
  unfold Browser.startRecord
  exact Browser.onStatus_isSome_local reg id _ _ i hi

/-- Helper: local-variant `stopRecord` never removes a registry entry. -/
theorem Browser.stopRecord_isSome (reg : Browser.Registry) (id : String)
    (i : String) (hi : (reg i).isSome = true) :
    ((Browser.stopRecord reg id).reg i).isSome = true := by
  unfold Browser.stopRecord
  exact Browser.onStatus_isSome_local reg id _ _ i hi

/-- Helper: local-variant `release` keeps the registry entry (it only
discards the owned element). -/
theorem Browser.release_isSome (reg : Browser.Registry) (id : String)
    (i : String) (hi : (reg i).isSome = true) :
    ((Browser.release reg id).reg i).isSome = true := by
  unfold Browser.release
  cases hm : reg id with
  | none => simpa using hi
  | some m => exact Browser.Registry.update_isSome_local reg id _ i hi

/-- Helper: local-variant `setVolume` never removes a registry entry. -/
theorem Browser.setVolume_isSome (reg : Browser.Registry) (id : String) (v : JSValue)
    (i : String) (hi : (reg i).isSome = true) :
    ((Browser.setVolume reg id v).reg i).isSome = true := by
  unfold Browser.setVolume
  cases hm : reg id with
  | none => simpa using hi
  | some m =>
    dsimp only
    cases hn : m.node with
    | some n => exact Browser.Registry.update_isSome_local reg id _ i hi
    | none => simpa using hi

/-- Helper: the local constructor only ever adds a registry entry. -/
theorem Browser.create_isSome_local (reg : Browser.Registry) (freshId : String)
    (audioOk : Bool) (src a b c : JSValue)
    (i : String) (hi : (reg i).isSome = true) :
    ((Browser.create reg freshId audioOk src a b c).reg i).isSome = true := by
  unfold Browser.create
  split
  · dsimp only
    split
    · exact Browser.Registry.update_isSome_local _ freshId _ i
        (Browser.onStatus_isSome_local _ freshId _ _ i
          (Browser.Registry.update_isSome_local reg freshId _ i hi))
    · exact Browser.onStatus_isSome_local _ freshId _ _ i
        (Browser.onStatus_isSome_local _ freshId _ _ i
          (Browser.Registry.update_isSome_local reg freshId _ i hi))
  · simpa using hi

/-- Helper: the bridge constructor only ever adds a registry entry. -/
theorem Bridge.create_isSome (reg : Bridge.Registry) (freshId : String)
    (src a b c : JSValue) (i : String) (hi : (reg i).isSome = true) :
    ((Bridge.create reg freshId src a b c).reg i).isSome = true := by
  unfold Bridge.create
  split
  · exact Bridge.Registry.update_isSome reg freshId _ i hi
  · simpa using hi

/-- Helper: the `stop` acknowledgment callback never removes an entry. -/
theorem Bridge.stopAck_isSome (reg : Bridge.Registry) (id : String)
    (i : String) (hi : (reg i).isSome = true) :
    ((Bridge.stopAck reg id).reg i).isSome = true := by
  unfold Bridge.stopAck
  cases hm : reg id with
  | none => simpa using hi
  | some m => exact Bridge.Registry.update_isSome reg id _ i hi

/-- Helper: the `seekTo` acknowledgment callback never removes an entry. -/
theorem Bridge.seekAck_isSome (reg : Bridge.Registry) (id : String) (p : JSValue)
    (i : String) (hi : (reg i).isSome = true) :
    ((Bridge.seekAck reg id p).reg i).isSome = true := by
  unfold Bridge.seekAck
  cases hm : reg id with
  | none => simpa using hi
  | some m => exact Bridge.Registry.update_isSome reg id _ i hi

/-- Helper: the `getCurrentPosition` acknowledgment callback never removes
an entry. -/
theorem Bridge.positionAck_isSome (reg : Bridge.Registry) (id : String) (p : JSValue)
    (i : String) (hi : (reg i).isSome = true) :
    ((Bridge.positionAck reg id p).reg i).isSome = true := by
  unfold Bridge.positionAck
  cases hm : reg id with
  | none => simpa using hi
  | some m => exact Bridge.Registry.update_isSome reg id _ i hi

/-- Helper: no single local-variant operation removes a registry entry. -/
theorem Browser.applyOp_isSome_local (reg : Browser.Registry) (op : Browser.Op)
    (i : String) (hi : (reg i).isSome = true) :
    ((Browser.applyOp reg op) i).isSome = true := by
  cases op with
  | construct freshId audioOk s a b c =>
    exact Browser.create_isSome_local reg freshId audioOk s a b c i hi
  | play id audioOk => exact Browser.play_isSome reg id audioOk i hi
  | stop id => exact Browser.stop_isSome reg id i hi
  | pause id => exact Browser.pause_isSome reg id i hi
  | seekTo id ms => exact Browser.seekTo_isSome reg id ms i hi
  | getCurrentPosition id => exact Browser.getCurrentPosition_isSome reg id i hi
  | startRecord id => exact Browser.startRecord_isSome reg id i hi
  | stopRecord id => exact Browser.stopRecord_isSome reg id i hi
  | release id => exact Browser.release_isSome reg id i hi
  | setVolume id v => exact Browser.setVolume_isSome reg id v i hi
  | status id t v => exact Browser.onStatus_isSome_local reg id t v i hi

/-- Helper: no single bridge-variant operation removes a registry entry. -/
theorem Bridge.applyOp_isSome (reg : Bridge.Registry) (op : Bridge.Op)
    (i : String) (hi : (reg i).isSome = true) :
    ((Bridge.applyOp reg op) i).isSome = true := by
  cases op with
  | construct freshId s a b c => exact Bridge.create_isSome reg freshId s a b c i hi
  | play id options => simpa [Bridge.applyOp, Bridge.play] using
      (by cases hm : reg id <;> simp [Bridge.play, hm, hi] :
        ((Bridge.play reg id options).reg i).isSome = true)
  | stop id => simpa [Bridge.applyOp, Bridge.stop] using hi
  | stopAck id => exact Bridge.stopAck_isSome reg id i hi
  | seekTo id ms => simpa [Bridge.applyOp, Bridge.seekTo] using hi
  | seekAck id p => exact Bridge.seekAck_isSome reg id p i hi
  | pause id => simpa [Bridge.applyOp, Bridge.pause] using hi
  | getCurrentPosition id => simpa [Bridge.applyOp, Bridge.getCurrentPosition] using hi
  | positionAck id p => exact Bridge.positionAck_isSome reg id p i hi
  | startRecord id => simpa [Bridge.applyOp, Bridge.startRecord] using
      (by cases hm : reg id <;> simp [Bridge.startRecord, hm, hi] :
        ((Bridge.startRecord reg id).reg i).isSome = true)
  | stopRecord id => simpa [Bridge.applyOp, Bridge.stopRecord] using hi
  | release id => simpa [Bridge.applyOp, Bridge.release] using hi
  | setVolume id v => simpa [Bridge.applyOp, Bridge.setVolume] using hi
  | status id t v => exact Bridge.onStatus_isSome reg id t v i hi

/-- Helper: no sequence of local-variant operations removes an entry. -/
theorem Browser.applyOps_isSome_local (ops : List Browser.Op) :
    ∀ (reg : Browser.Registry) (i : String), (reg i).isSome = true →
      ((Browser.applyOps reg ops) i).isSome = true := by
  induction ops with
  | nil => intro reg i hi; simpa [Browser.applyOps] using hi
  | cons op rest ih =>
    intro reg i hi
    simpa [Browser.applyOps] using ih _ i (Browser.applyOp_isSome_local reg op i hi)

/-- Helper: no sequence of bridge-variant operations removes an entry. -/
theorem Bridge.applyOps_isSome (ops : List Bridge.Op) :
    ∀ (reg : Bridge.Registry) (i : String), (reg i).isSome = true →
      ((Bridge.applyOps reg ops) i).isSome = true := by
  induction ops with
  | nil => intro reg i hi; simpa [Bridge.applyOps] using hi
  | cons op rest ih =>
    intro reg i hi
    simpa [Bridge.applyOps] using ih _ i (Bridge.applyOp_isSome reg op i hi)

/-- Helper: the bridge constructor registers the fresh id whenever the
argument check passed (that is, whenever it did not raise). -/
theorem Bridge.create_registers (reg : Bridge.Registry) (freshId : String)
    (src a b c : JSValue)
    (hok : (Bridge.create reg freshId src a b c).thrown = none) :
    ((Bridge.create reg freshId src a b c).reg freshId).isSome = true := by
  unfold Bridge.create at hok ⊢
  split at hok
  next hc => rw [if_pos hc]; simp [Bridge.Registry.update]
  next hc => exact absurd hok (by simp)

/-- Helper: the local constructor raises exactly when its argument check
fails (element-construction failure is caught and reported, not raised). -/
theorem Browser.create_thrown (wreg : Browser.Registry) (freshId : String)
    (audioOk : Bool) (src a b c : JSValue) :
    (Browser.create wreg freshId audioOk src a b c).thrown =
      (if checkArgs [.optString, .optFunction, .optFunction, .optFunction]
          [src, a, b, c] = true
       then none else some (.exnObj "NocSonicMedia: argument type mismatch")) := by
  unfold Browser.create
  split
  · dsimp only
    split <;> rfl
  · rfl

/-- Helper: the local constructor registers the fresh id whenever it did
not raise. -/
theorem Browser.create_registers_local (reg : Browser.Registry) (freshId : String)
    (audioOk : Bool) (src a b c : JSValue)
    (hok : (Browser.create reg freshId audioOk src a b c).thrown = none) :
    ((Browser.create reg freshId audioOk src a b c).reg freshId).isSome = true := by
  have hc : checkArgs [.optString, .optFunction, .optFunction, .optFunction]
      [src, a, b, c] = true := by
    by_contra hcc
    rw [Browser.create_thrown, if_neg hcc] at hok
    cases hok
  unfold Browser.create
  rw [if_pos hc]
  dsimp only
  split
  · simp [Browser.Registry.update]
  · exact Browser.onStatus_isSome_local _ freshId _ _ freshId
      (Browser.onStatus_isSome_local _ freshId _ _ freshId
        (by simp [Browser.Registry.update]))

/-- **C6**: the id→handle registry grows monotonically in both variants: no
operation of either variant — arbitrary sequences of play, stop, pause,
seek, position queries, record calls, release, volume changes,
acknowledgment callbacks and status deliveries, constructions included —
ever removes an entry, and every constructor call that does not raise has
already inserted the new handle under its fresh id when it returns (the
`exec`/element work happens after the registration in the source). -/
theorem registry_grows_monotonically :
    (∀ (reg : Browser.Registry) (ops : List Browser.Op) (i : String),
        (reg i).isSome = true → (Browser.applyOps reg ops i).isSome = true)
    ∧ (∀ (reg : Bridge.Registry) (ops : List Bridge.Op) (i : String),
        (reg i).isSome = true → (Bridge.applyOps reg ops i).isSome = true)
    ∧ (∀ (reg : Browser.Registry) (freshId : String) (audioOk : Bool)
        (src a b c : JSValue),
        (Browser.create reg freshId audioOk src a b c).thrown = none →
        ((Browser.create reg freshId audioOk src a b c).reg freshId).isSome = true)
    ∧ (∀ (reg : Bridge.Registry) (freshId : String) (src a b c : JSValue),
        (Bridge.create reg freshId src a b c).thrown = none →
        ((Bridge.create reg freshId src a b c).reg freshId).isSome = true) :=
  ⟨fun reg ops i hi => Browser.applyOps_isSome_local ops reg i hi,
   fun reg ops i hi => Bridge.applyOps_isSome ops reg i hi,
   fun reg freshId audioOk src a b c hok =>
     Browser.create_registers_local reg freshId audioOk src a b c hok,
   fun reg freshId src a b c hok =>
     Bridge.create_registers reg freshId src a b c hok⟩

/-- Witness for **C6**: the sample handle survives a sample operation
sequence including `release`. -/
theorem registry_grows_monotonically_witness :
    (sampleBrowserReg "m1").isSome = true
    ∧ (Browser.applyOps sampleBrowserReg sampleOps "m1").isSome = true :=
  ⟨by decide,
   registry_grows_monotonically.1 sampleBrowserReg sampleOps "m1" (by decide)⟩

/-- Helper: the effect of one bridge-variant `onStatus` call on the
registry alone — only Duration and Position messages touch it. -/
theorem Bridge.onStatus_reg (reg : Bridge.Registry) (i : String) (t v : JSValue) :
    (Bridge.onStatus reg i t v).reg =
      match reg i with
      | none => reg
      | some m =>
        if t = .num NocSonicMedia.MEDIA_DURATION then
          Bridge.Registry.update reg i { m with duration := v }
        else if t = .num NocSonicMedia.MEDIA_POSITION then
          Bridge.Registry.update reg i
            { m with position := (jsNumber v).elim (.exnObj "NaN") .num }
        else reg := by
  unfold Bridge.onStatus
  cases reg i with
  | none => rfl
  | some m =>
    dsimp only
    split_ifs <;>
      first
        | rfl
        | simp_all [NocSonicMedia.MEDIA_STATE, NocSonicMedia.MEDIA_DURATION,
            NocSonicMedia.MEDIA_ERROR, NocSonicMedia.MEDIA_POSITION]

/-- Helper: how one bridge-variant status delivery transforms the cached
duration of the handle registered at `id`: a Duration message addressed to
`id` overwrites it with the raw payload, every other delivery leaves it. -/
theorem Bridge.onStatus_entry (reg : Bridge.Registry) (i : String) (t v : JSValue)
    (id : String) (m : Bridge.Handle) (h : reg id = some m) :
    ∃ m', (Bridge.onStatus reg i t v).reg id = some m'
      ∧ m'.duration = (if i = id ∧ t = JSValue.num NocSonicMedia.MEDIA_DURATION
          then v else m.duration) := by
  rw [Bridge.onStatus_reg]
  by_cases hii : i = id
  · subst hii
    rw [h]
    dsimp only
    by_cases h2 : t = JSValue.num NocSonicMedia.MEDIA_DURATION
    · rw [if_pos h2]
      exact ⟨{ m with duration := v }, by simp [Bridge.Registry.update], by simp [h2]⟩
    · rw [if_neg h2]
      by_cases h3 : t = JSValue.num NocSonicMedia.MEDIA_POSITION
      · rw [if_pos h3]
        exact ⟨{ m with position := (jsNumber v).elim (.exnObj "NaN") .num },
          by simp [Bridge.Registry.update], by simp [h2]⟩
      · rw [if_neg h3]
        exact ⟨m, h, by simp [h2]⟩
  · have hii2 : ¬ id = i := fun he => hii he.symm
    cases hm : reg i with
    | none => exact ⟨m, h, by simp [hii]⟩
    | some mi =>
      dsimp only
      split_ifs <;>
        first
          | exact ⟨m, by simp [Bridge.Registry.update, hii2, h], rfl⟩
          | exact ⟨m, h, rfl⟩
          | simp_all

/-- Helper: over a whole delivery sequence, the cached duration of the
handle at `id` ends as the payload of the last Duration message addressed
to `id`, or its starting value when there is none. -/
theorem Bridge.deliverAll_duration (msgs : List (String × JSValue × JSValue)) :
    ∀ (reg : Bridge.Registry) (id : String) (m : Bridge.Handle),
      reg id = some m →
      ∃ m', Bridge.deliverAll reg msgs id = some m'
        ∧ m'.duration = lastDurationValue id msgs m.duration := by
  induction msgs with
  | nil => exact fun reg id m h => ⟨m, h, rfl⟩
  | cons msg rest ih =>
    intro reg id m h
    obtain ⟨m₁, h₁, hd₁⟩ := Bridge.onStatus_entry reg msg.1 msg.2.1 msg.2.2 id m h
    obtain ⟨m2, h2, hd2⟩ := ih _ id m₁ h₁
    refine ⟨m2, ?_, ?_⟩
    · simpa [Bridge.deliverAll] using h2
    · rw [hd2, hd₁]
      simp [lastDurationValue]

/-- **C2**: for every constructed bridge-variant handle, after any sequence
of status deliveries (any ids, types and values), `getDuration()` returns
−1 when no Duration message has been delivered for the handle's id, and
exactly the payload of the most recently delivered such message otherwise.
`getDuration` is the pure projection `return this._duration` in the source
and correspondingly a state-free function of the handle in this embedding,
so it has no side effect by construction. -/
theorem getDuration_tracks_last_duration_message
    (reg : Bridge.Registry) (freshId : String) (src a b c : JSValue)
    (hok : (Bridge.create reg freshId src a b c).thrown = none)
    (msgs : List (String × JSValue × JSValue)) :
    ∃ m, Bridge.deliverAll (Bridge.create reg freshId src a b c).reg msgs freshId
        = some m
      ∧ Bridge.getDuration m = lastDurationValue freshId msgs (.num (-1)) := by
  have h0 : (Bridge.create reg freshId src a b c).reg freshId
      = some { id := freshId, src := src, successCallback := a, errorCallback := b,
               statusCallback := c, duration := .num (-1), position := .num (-1) } := by
    unfold Bridge.create at hok ⊢
    split at hok
    next hc => rw [if_pos hc]; simp [Bridge.Registry.update]
    next hc => exact absurd hok (by simp)
  obtain ⟨m, hm, hd⟩ := Bridge.deliverAll_duration msgs _ freshId _ h0
  exact ⟨m, hm, by simpa [Bridge.getDuration] using hd⟩

/-- Witness for **C2**: a fresh handle, two Duration messages for it, a
State message and a Duration message for another id. -/
theorem getDuration_tracks_last_duration_message_witness :
    (Bridge.create (fun _ => none) "m1" (.str "track.mp3") .func .undefined .undefined).thrown
      = none
    ∧ ∃ m, Bridge.deliverAll
          (Bridge.create (fun _ => none) "m1" (.str "track.mp3") .func .undefined .undefined).reg
          [("m1", .num 2, .num 42), ("m1", .num 1, .num 2),
           ("m2", .num 2, .num 7), ("m1", .num 2, .num 95)] "m1"
        = some m
      ∧ Bridge.getDuration m
        = lastDurationValue "m1"
            [("m1", .num 2, .num 42), ("m1", .num 1, .num 2),
             ("m2", .num 2, .num 7), ("m1", .num 2, .num 95)] (.num (-1)) :=
  ⟨by decide,
   getDuration_tracks_last_duration_message (fun _ => none) "m1" (.str "track.mp3")
     .func .undefined .undefined (by decide)
     [("m1", .num 2, .num 42), ("m1", .num 1, .num 2),
      ("m2", .num 2, .num 7), ("m1", .num 2, .num 95)]⟩

/-- Counterexample to **C4** as stated: on a released handle whose element
construction fails (the host cannot build an `Audio` element), `play()`
does report the Error/aborted notification, but then still evaluates
`this.node.play()` on the absent node and raises a `TypeError` to the
caller — so "play() succeeds without raising … instead of raising to the
caller" is false on the construction-failure branch. -/
theorem play_after_failed_rebuild_raises :
    (Browser.play releasedBrowserReg "m1" false).thrown
      = some (.exnObj "TypeError: this.node is undefined")
    ∧ (Browser.play releasedBrowserReg "m1" false).events
      = [.errorCb "m1" (.obj NocSonicMediaError.MEDIA_ERR_ABORTED)] := by
  decide

/-- **C4** (amended): for every released local-variant handle, `play()`
lazily rebuilds the underlying element and starts it, succeeding without
raising, whenever element construction succeeds; when element construction
fails it reports an Error notification with the aborted code and then
raises (the unconditional `this.node.play()` finds the node still
absent). -/
theorem play_after_release_rebuilds_then_plays
    (wreg : Browser.Registry) (id : String) (wm : Browser.Handle)
    (hw : wreg id = some wm) (hnode : wm.node = none)
    (hwe : wm.errorCallback.truthy = true) :
    ((Browser.play wreg id true).thrown = none
      ∧ (Browser.play wreg id true).events = []
      ∧ (Browser.play wreg id true).reg id
          = some { wm with node := some (Browser.AudioNode.mk
              (if wm.src.truthy then some wm.src else none) 0 false (.num 1)) })
    ∧ ((Browser.play wreg id false).events
        = [.errorCb id (.obj NocSonicMediaError.MEDIA_ERR_ABORTED)]
      ∧ (Browser.play wreg id false).thrown.isSome = true) := by
  constructor
  · simp [Browser.play, Browser.createNode, hw, hnode, Browser.Registry.update]
  · simp [Browser.play, Browser.createNode, Browser.onStatus, hw, hnode, hwe,
      NocSonicMedia.MEDIA_ERROR, NocSonicMedia.MEDIA_STATE,
      NocSonicMedia.MEDIA_DURATION]

/-- Witness for the amended **C4** at the released sample handle. -/
theorem play_after_release_rebuilds_then_plays_witness :
    (releasedBrowserReg "m1" = some releasedBrowserHandle
      ∧ releasedBrowserHandle.node = none
      ∧ releasedBrowserHandle.errorCallback.truthy = true)
    ∧ (((Browser.play releasedBrowserReg "m1" true).thrown = none
      ∧ (Browser.play releasedBrowserReg "m1" true).events = []
      ∧ (Browser.play releasedBrowserReg "m1" true).reg "m1"
          = some { releasedBrowserHandle with node := some (Browser.AudioNode.mk
              (if releasedBrowserHandle.src.truthy then some releasedBrowserHandle.src
               else none) 0 false (.num 1)) })
    ∧ ((Browser.play releasedBrowserReg "m1" false).events
        = [.errorCb "m1" (.obj NocSonicMediaError.MEDIA_ERR_ABORTED)]
      ∧ (Browser.play releasedBrowserReg "m1" false).thrown.isSome = true)) :=
  ⟨by decide,
   play_after_release_rebuilds_then_plays releasedBrowserReg "m1"
     releasedBrowserHandle (by decide) (by decide) (by decide)⟩

/-- Counterexample to **C8** as stated: the local variant's constructor
uses the specification string `'SFFF'`, whose uppercase `'S'` marks the
source as optional — constructing with the source absent (`undefined`)
does not raise, and the handle is registered. -/
theorem local_constructor_accepts_absent_src :
    (Browser.create (fun _ => none) "m1" true .undefined .undefined .undefined .undefined).thrown = none
    ∧ ((Browser.create (fun _ => none) "m1" true .undefined .undefined .undefined .undefined).reg
        "m1").isSome = true := by
  decide

/-- Helper: which values the required-string specification character
accepts. -/
theorem argOk_reqString (v : JSValue) :
    argOk .reqString v = true ↔ ∃ s, v = .str s := by
  cases v <;> simp [argOk]

/-- Helper: which values the optional-string specification character
accepts. -/
theorem argOk_optString (v : JSValue) :
    argOk .optString v = true ↔ (∃ s, v = .str s) ∨ v = .undefined := by
  cases v <;> simp [argOk]

/-- Helper: which values the optional-function specification character
accepts. -/
theorem argOk_optFunction (v : JSValue) :
    argOk .optFunction v = true ↔ v = .func ∨ v = .undefined := by
  cases v <;> simp [argOk]

/-- **C8** (amended): both constructors type-check their arguments against
a fixed signature and raise, before registering anything, exactly when it
is violated — but the two signatures differ on the source: the bridge
variant (`'sFFF'`) requires a string and fails fast when the source is
absent or not a string, while the local variant (`'SFFF'`) marks the
source optional, accepting an absent (`undefined`/`null`) source and
rejecting only a present non-string one; the three callbacks must be
functions when supplied in both variants. -/
theorem constructor_signature_check (breg : Bridge.Registry) (wreg : Browser.Registry)
    (freshId : String) (audioOk : Bool) (src a b c : JSValue) :
    ((Bridge.create breg freshId src a b c).thrown = none ↔
      ((∃ s, src = .str s)
        ∧ (a = .func ∨ a = .undefined) ∧ (b = .func ∨ b = .undefined)
        ∧ (c = .func ∨ c = .undefined)))
    ∧ ((Browser.create wreg freshId audioOk src a b c).thrown = none ↔
      (((∃ s, src = .str s) ∨ src = .undefined)
        ∧ (a = .func ∨ a = .undefined) ∧ (b = .func ∨ b = .undefined)
        ∧ (c = .func ∨ c = .undefined)))
    ∧ ((Bridge.create breg freshId src a b c).thrown ≠ none →
        (Bridge.create breg freshId src a b c).reg = breg)
    ∧ ((Browser.create wreg freshId audioOk src a b c).thrown ≠ none →
        (Browser.create wreg freshId audioOk src a b c).reg = wreg) := by
  have hb : (Bridge.create breg freshId src a b c).thrown = none ↔
      checkArgs [.reqString, .optFunction, .optFunction, .optFunction]
        [src, a, b, c] = true := by
    unfold Bridge.create
    split <;> simp_all
  have hw : (Browser.create wreg freshId audioOk src a b c).thrown = none ↔
      checkArgs [.optString, .optFunction, .optFunction, .optFunction]
        [src, a, b, c] = true := by
    rw [Browser.create_thrown]
    split <;> simp_all
  refine ⟨?_, ?_, ?_, ?_⟩
  · rw [hb]
    simp [checkArgs, argOk_reqString, argOk_optFunction, and_assoc]
  · rw [hw]
    simp [checkArgs, argOk_optString, argOk_optFunction, and_assoc]
  · intro hth
    have hc : ¬ checkArgs [.reqString, .optFunction, .optFunction, .optFunction]
        [src, a, b, c] = true := fun hcc => hth (hb.mpr hcc)
    unfold Bridge.create
    rw [if_neg hc]
  · intro hth
    have hc : ¬ checkArgs [.optString, .optFunction, .optFunction, .optFunction]
        [src, a, b, c] = true := fun hcc => hth (hw.mpr hcc)
    unfold Browser.create
    rw [if_neg hc]

/-- Witness for the amended **C8** at a string source with one callback. -/
theorem constructor_signature_check_witness :
    ((Bridge.create sampleBridgeReg "m2" (.str "a.mp3") .func .undefined .undefined).thrown
        = none ↔
      ((∃ s, (JSValue.str "a.mp3") = .str s)
        ∧ ((JSValue.func) = .func ∨ (JSValue.func) = .undefined)
        ∧ ((JSValue.undefined) = .func ∨ (JSValue.undefined) = .undefined)
        ∧ ((JSValue.undefined) = .func ∨ (JSValue.undefined) = .undefined)))
    ∧ ((Browser.create sampleBrowserReg "m2" true (.str "a.mp3") .func .undefined
          .undefined).thrown = none ↔
      (((∃ s, (JSValue.str "a.mp3") = .str s) ∨ (JSValue.str "a.mp3") = .undefined)
        ∧ ((JSValue.func) = .func ∨ (JSValue.func) = .undefined)
        ∧ ((JSValue.undefined) = .func ∨ (JSValue.undefined) = .undefined)
        ∧ ((JSValue.undefined) = .func ∨ (JSValue.undefined) = .undefined)))
    ∧ ((Bridge.create sampleBridgeReg "m2" (.str "a.mp3") .func .undefined .undefined).thrown
          ≠ none →
        (Bridge.create sampleBridgeReg "m2" (.str "a.mp3") .func .undefined .undefined).reg
          = sampleBridgeReg)
    ∧ ((Browser.create sampleBrowserReg "m2" true (.str "a.mp3") .func .undefined
          .undefined).thrown ≠ none →
        (Browser.create sampleBrowserReg "m2" true (.str "a.mp3") .func .undefined
          .undefined).reg = sampleBrowserReg) :=
  constructor_signature_check sampleBridgeReg sampleBrowserReg "m2" true
    (.str "a.mp3") .func .undefined .undefined

/-- **C10**: on a local-variant handle whose element is absent (after
`release()` and before any `play()`), `setVolume` raises a `TypeError`
synchronously to the caller and emits no Error notification — it has no
catch-and-report guard — whereas `pause`, `stop`, `seekTo`, `release` and
`getCurrentPosition` all catch the element failure and never raise. -/
theorem setVolume_unguarded_raises
    (wreg : Browser.Registry) (id : String) (wm : Browser.Handle)
    (hw : wreg id = some wm) (hnode : wm.node = none) (v : JSValue) (ms : Rat) :
    ((Browser.setVolume wreg id v).thrown.isSome = true
      ∧ (Browser.setVolume wreg id v).events = [])
    ∧ ((Browser.pause wreg id).thrown = none
      ∧ (Browser.stop wreg id).thrown = none
      ∧ (Browser.seekTo wreg id ms).thrown = none
      ∧ (Browser.release wreg id).thrown = none
      ∧ (Browser.getCurrentPosition wreg id).thrown = none) := by
  refine ⟨⟨?_, ?_⟩, ?_, ?_, ?_, ?_, ?_⟩
  · simp [Browser.setVolume, hw, hnode]
  · simp [Browser.setVolume, hw, hnode]
  · simp [Browser.pause, Browser.onStatus, hw, hnode]
  · simp [Browser.stop]
  · simp [Browser.seekTo, Browser.onStatus, hw, hnode]
  · simp [Browser.release, hw]
  · simp [Browser.getCurrentPosition, hw, hnode]

/-- Witness for **C10** at the released sample handle. -/
theorem setVolume_unguarded_raises_witness :
    (releasedBrowserReg "m1" = some releasedBrowserHandle
      ∧ releasedBrowserHandle.node = none)
    ∧ (((Browser.setVolume releasedBrowserReg "m1" (.num 1)).thrown.isSome = true
      ∧ (Browser.setVolume releasedBrowserReg "m1" (.num 1)).events = [])
    ∧ ((Browser.pause releasedBrowserReg "m1").thrown = none
      ∧ (Browser.stop releasedBrowserReg "m1").thrown = none
      ∧ (Browser.seekTo releasedBrowserReg "m1" 0).thrown = none
      ∧ (Browser.release releasedBrowserReg "m1").thrown = none
      ∧ (Browser.getCurrentPosition releasedBrowserReg "m1").thrown = none)) :=
  ⟨by decide,
   setVolume_unguarded_raises releasedBrowserReg "m1" releasedBrowserHandle
     (by decide) (by decide) (.num 1) 0⟩
